import Mathlib

/-!
A shallow embedding of the signal-fusion and sensor-supervision engine of
`gemini-sentry-build` (files `rf_sentry.py` and `sentry_daemon.py`), together
with theorems settling the specification claims about it.

Conventions of the embedding:
* Python `dict`s keyed by strings become association lists with Python's
  lookup/overwrite semantics (`alLookup` / `alSet`).
* Wall-clock timestamps (`time.time()`) become an explicit `ℚ` parameter
  threaded through the operations.
* `str.upper()` on the ASCII strings involved (MAC addresses) becomes a map
  of `Char.toUpper` over the characters, which performs the same
  `a-z` → `A-Z` shift.
* The global `EVENT_QUEUE` list and the heartbeat fields of the watchdog
  object are folded into one explicit state record, `SentryState`.
-/

/-- Association-list lookup with Python-`dict` semantics: the first binding
of the key wins (our `alSet` never creates duplicates). -/
def alLookup {β : Type} (k : String) : List (String × β) → Option β
  | [] => none
  | (k', v) :: rest => if k' = k then some v else alLookup k rest

/-- Association-list update with Python-`dict` semantics: overwrite the
existing binding in place, or append a fresh one. -/
def alSet {β : Type} (k : String) (v : β) : List (String × β) → List (String × β)
  | [] => [(k, v)]
  | (k', v') :: rest => if k' = k then (k, v) :: rest else (k', v') :: alSet k v rest

/-- Python's `str.upper()` restricted to its ASCII action, which is all that
MAC-address strings exercise: each `a`–`z` character is shifted to `A`–`Z`,
every other character is unchanged (`Char.toUpper` does exactly this). -/
def pyUpper (s : String) : String := ⟨s.data.map Char.toUpper⟩

/-- The configuration fields read by the engine, mirroring `DEFAULT_CONFIG`
in `rf_sentry.py` (whitelist is the `dict` MAC → display name). -/
structure Config where
  whitelist : List (String × String)
  approach_delta : Int
  approach_window : ℚ
  watchdog_timeout : ℚ
  wifi_interface : String
  rssi_threshold_alert : Int
deriving DecidableEq, Repr

/-- `DEFAULT_CONFIG` of `rf_sentry.py`. -/
def defaultConfig : Config :=
  { whitelist := []
    approach_delta := 5
    approach_window := 10
    watchdog_timeout := 10
    wifi_interface := "wlan0"
    rssi_threshold_alert := -85 }

/-- One entry of `self.tracking`: the `dict` value
`{'rssi': ..., 'ts': ..., 'history': [...]}`. -/
structure DeviceRecord where
  rssi : Int
  ts : ℚ
  history : List Int
deriving DecidableEq, Repr

/-- One element of the global `EVENT_QUEUE`: the `dict`
`{"type": "alert", "msg": ..., "ts": ..., "mac": ..., "rssi": ...}`. -/
structure AlertEvent where
  type : String
  msg : String
  ts : ℚ
  mac : String
  rssi : Int
deriving DecidableEq, Repr

/-- The sensor source tag passed to `process_signal` (`"bt"` or `"wifi"`). -/
inductive Source where
  | bt
  | wifi
deriving DecidableEq, Repr

/-- The mutable state of the engine: the two heartbeat timestamps and the
liveness of the two sensor threads (fields of `SentryWatchdog`), the
`tracking` map, and the global `EVENT_QUEUE`. -/
structure SentryState where
  bt_last_beat : ℚ
  wifi_last_beat : ℚ
  bt_alive : Bool
  wifi_alive : Bool
  tracking : List (String × DeviceRecord)
  queue : List AlertEvent
deriving DecidableEq, Repr

/-- `SentryWatchdog.update_beat`. -/
def update_beat (st : SentryState) (source : Source) (now : ℚ) : SentryState :=
  match source with
  | .bt => { st with bt_last_beat := now }
  | .wifi => { st with wifi_last_beat := now }

/-- The alert message built by `process_signal`:
`f"APPROACH DETECTED: Unknown Device ({mac}) | Delta: +{delta}dB | Signal: {rssi}dBm"`. -/
def alertMsg (mac : String) (delta rssi : Int) : String :=
  "APPROACH DETECTED: Unknown Device (" ++ mac ++ ") | Delta: +" ++ toString delta
    ++ "dB | Signal: " ++ toString rssi ++ "dBm"

/-- The event appended to `EVENT_QUEUE` by `process_signal`. -/
def mkAlert (mac : String) (delta rssi : Int) (now : ℚ) : AlertEvent :=
  { type := "alert"
    msg := alertMsg mac delta rssi
    ts := now
    mac := mac
    rssi := rssi }

/-- `SentryWatchdog.process_signal`: heartbeat update, uppercase
normalization, whitelist filter, first-sighting initialization, state update
with the bounded history, and the alert condition. -/
def process_signal (cfg : Config) (st : SentryState) (mac : String) (rssi : Int)
    (source : Source) (now : ℚ) : SentryState :=
  let st := update_beat st source now
  let mac := pyUpper mac
  if (alLookup mac cfg.whitelist).isSome then
    st
  else
    match alLookup mac st.tracking with
    | none =>
        { st with tracking := alSet mac { rssi := rssi, ts := now, history := [rssi] } st.tracking }
    | some record =>
        let prev_rssi := record.rssi
        let delta := rssi - prev_rssi
        let history := record.history ++ [rssi]
        let history := if history.length > 5 then history.drop 1 else history
        let st := { st with
          tracking := alSet mac { rssi := rssi, ts := now, history := history } st.tracking }
        if delta ≥ cfg.approach_delta ∧ rssi > cfg.rssi_threshold_alert then
          { st with queue := st.queue ++ [mkAlert mac delta rssi now] }
        else
          st

/-! ### The Wi-Fi sensor's scan command (`WifiMonitor.run`) -/

/-- All names bound at module level in `rf_sentry.py` (its imports and
top-level definitions), i.e. the names a bare identifier in the module can
resolve to besides builtins. -/
def rfSentryModuleGlobals : List String :=
  ["threading", "time", "subprocess", "re", "os", "signal", "json", "logging",
   "datetime", "logger", "CONFIG_PATH", "DEFAULT_CONFIG", "CURRENT_CONFIG",
   "load_config", "EVENT_QUEUE", "SentryWatchdog", "BluetoothMonitor", "WifiMonitor"]

/-- The string-valued module-level bindings of `rf_sentry.py` (the only
top-level name bound to a string is `CONFIG_PATH`). -/
def rfSentryStringGlobals : List (String × String) :=
  [("CONFIG_PATH", "/etc/gemini-sentry/config.json")]

/-- The scan command built each Wi-Fi cycle,
`["sudo", "iw", "dev", WIFI_IFACE, "scan"]`: it interpolates the module
global `WIFI_IFACE`, so it is only defined when that name resolves
(`none` models the `NameError` Python raises otherwise). -/
def wifiScanCmd : Option (List String) :=
  (alLookup "WIFI_IFACE" rfSentryStringGlobals).map
    (fun iface => ["sudo", "iw", "dev", iface, "scan"])

/-- How one iteration of the `WifiMonitor.run` loop ends. -/
inductive WifiCycleOutcome where
  | parsed
  | timedOut
  | errored
deriving DecidableEq, Repr

/-- One iteration of the Wi-Fi scan loop, abstracted to its outcome: building
the command with an unresolvable name raises (caught by the
`except Exception` arm, 2 s backoff); otherwise the spawned scan either times
out (ignored) or its output is parsed. `scanTimedOut` stands for the external
outcome of the 5 s-bounded `subprocess.run`. -/
def wifiCycle (scanTimedOut : Bool) : WifiCycleOutcome :=
  match wifiScanCmd with
  | none => .errored
  | some _ => if scanTimedOut then .timedOut else .parsed

/-! ### The supervisor poll loop (`SentryWatchdog.run`, `start_bt`,
`start_wifi`, `reset_bt_adapter`, and the sensors' `stop`) -/

/-- The externally visible actions a supervisor poll can take, in the order
the code performs them. `btStopFlag`/`btTerminate`/`btKill` are the three
steps of `BluetoothMonitor.stop` (cooperative flag, graceful `terminate`,
forced `kill`); `wifiStopFlag` is all of `WifiMonitor.stop`; the three
`rfkill`/`hciconfig` actions are the hardware reset sequence. -/
inductive SupAction where
  | rfkillBlock
  | rfkillUnblock
  | hciReset
  | btStopFlag
  | btTerminate
  | btKill
  | btBeatReset
  | btThreadStart
  | wifiStopFlag
  | wifiBeatReset
  | wifiThreadStart
deriving DecidableEq, Repr

/-- Actions of `BluetoothMonitor.stop`: set `running = False`, then
`proc.terminate()`, then `proc.kill()` (each wrapped in its own
try/except). -/
def stop_bt_actions : List SupAction := [.btStopFlag, .btTerminate, .btKill]

/-- Actions of `WifiMonitor.stop`: set `running = False` only (the Wi-Fi
sensor holds no long-lived subordinate process). -/
def stop_wifi_actions : List SupAction := [.wifiStopFlag]

/-- The command steps of `SentryWatchdog.reset_bt_adapter`, in order. -/
def reset_bt_adapter_actions : List SupAction := [.rfkillBlock, .rfkillUnblock, .hciReset]

/-- `SentryWatchdog.start_bt`: stop the existing thread if it is alive, reset
the Bluetooth heartbeat, then start a fresh `BluetoothMonitor`. -/
def start_bt (st : SentryState) (now : ℚ) : List SupAction × SentryState :=
  ((if st.bt_alive then stop_bt_actions else []) ++ [.btBeatReset, .btThreadStart],
   { st with bt_last_beat := now, bt_alive := true })

/-- `SentryWatchdog.start_wifi`: stop the existing thread if it is alive,
reset the Wi-Fi heartbeat, then start a fresh `WifiMonitor`. -/
def start_wifi (st : SentryState) (now : ℚ) : List SupAction × SentryState :=
  ((if st.wifi_alive then stop_wifi_actions else []) ++ [.wifiBeatReset, .wifiThreadStart],
   { st with wifi_last_beat := now, wifi_alive := true })

/-- One iteration of the `SentryWatchdog.run` poll loop: check the Bluetooth
heartbeat against `watchdog_timeout` (hardware reset, then restart), then the
Wi-Fi heartbeat against `timeout * 3` (plain restart). Returns the action
trace and the successor state. -/
def pollStep (cfg : Config) (st : SentryState) (now : ℚ) : List SupAction × SentryState :=
  let timeout := cfg.watchdog_timeout
  let bt :=
    if now - st.bt_last_beat > timeout then
      let s := start_bt st now
      (reset_bt_adapter_actions ++ s.1, s.2)
    else
      ([], st)
  let wifi :=
    if now - bt.2.wifi_last_beat > timeout * 3 then
      start_wifi bt.2 now
    else
      ([], bt.2)
  (bt.1 ++ wifi.1, wifi.2)

/-! ### The Bluetooth hardware reset sequence under per-step failures -/

/-- How one `subprocess.run(..., check=False)` invocation can go: success,
a command exiting with a nonzero status (no exception, because
`check=False`), or the invocation itself raising (e.g. a spawn error). -/
inductive CmdOutcome where
  | ok
  | nonzeroExit
  | raises
deriving DecidableEq, Repr

/-- `SentryWatchdog.reset_bt_adapter` under outcomes `o1 o2 o3` for its three
command steps: the whole sequence sits in one `try` block, so the first
raising step jumps to the `except` arm, skipping the remaining steps. Returns
the list of steps actually attempted and whether an exception escaped to the
caller (it never does: the `except Exception` arm swallows it). -/
def reset_bt_adapter (o1 o2 o3 : CmdOutcome) : List SupAction × Bool :=
  if o1 = .raises then ([.rfkillBlock], false)
  else if o2 = .raises then ([.rfkillBlock, .rfkillUnblock], false)
  else ([.rfkillBlock, .rfkillUnblock, .hciReset], false)

/-! ### The event queue (`EVENT_QUEUE`, pushed in `rf_sentry.py`, drained in
`sentry_daemon.main`) -/

/-- `EVENT_QUEUE.append(event)`. -/
def push (q : List AlertEvent) (e : AlertEvent) : List AlertEvent := q ++ [e]

/-- The consumer's guarded pop in `sentry_daemon.main`:
`if rf_sentry.EVENT_QUEUE: event = rf_sentry.EVENT_QUEUE.pop(0)` — the head
event when one is pending, `none` (no event this iteration) when the queue is
empty. -/
def popOldest (q : List AlertEvent) : Option AlertEvent × List AlertEvent :=
  match q with
  | [] => (none, [])
  | e :: rest => (some e, rest)

/-- The heartbeat field belonging to a sensor source. -/
def beatOf (st : SentryState) : Source → ℚ
  | .bt => st.bt_last_beat
  | .wifi => st.wifi_last_beat

/-- The other sensor source. -/
def otherSource : Source → Source
  | .bt => .wifi
  | .wifi => .bt

/-- A sequence of `process_signal` calls for one address from one source,
given the (strength, timestamp) pairs in arrival order. -/
def processSeq (cfg : Config) (st : SentryState) (mac : String) (source : Source) :
    List (Int × ℚ) → SentryState
  | [] => st
  | (rssi, now) :: rest =>
      processSeq cfg (process_signal cfg st mac rssi source now) mac source rest

/-! ### Helper lemmas -/

theorem alLookup_alSet_self {β : Type} (k : String) (v : β) (l : List (String × β)) :
    alLookup k (alSet k v l) = some v := by
  induction l with
  | nil => simp [alSet, alLookup]
  | cons hd tl ih =>
    obtain ⟨k', v'⟩ := hd
    by_cases h : k' = k
    · simp [alSet, alLookup, h]
    · simp [alSet, alLookup, h, ih]

theorem alLookup_alSet_of_ne {β : Type} {k₁ k₂ : String} (v : β) (l : List (String × β))
    (h : k₂ ≠ k₁) : alLookup k₂ (alSet k₁ v l) = alLookup k₂ l := by
  have h' : ¬ k₁ = k₂ := fun e => h e.symm
  induction l with
  | nil => simp [alSet, alLookup, h']
  | cons hd tl ih =>
    obtain ⟨k', v'⟩ := hd
    by_cases hk : k' = k₁
    · subst hk
      simp [alSet, alLookup, h']
    · simp [alSet, alLookup, hk, ih]

theorem alLookup_alSet_some {β : Type} {k₁ k₂ : String} {v r : β} {l : List (String × β)}
    (h : alLookup k₂ (alSet k₁ v l) = some r) : r = v ∨ alLookup k₂ l = some r := by
  by_cases hk : k₂ = k₁
  · subst hk
    rw [alLookup_alSet_self] at h
    exact Or.inl (Option.some_injective _ h).symm
  · rw [alLookup_alSet_of_ne v l hk] at h
    exact Or.inr h

theorem update_beat_tracking (st : SentryState) (source : Source) (now : ℚ) :
    (update_beat st source now).tracking = st.tracking := by
  cases source <;> rfl

theorem update_beat_queue (st : SentryState) (source : Source) (now : ℚ) :
    (update_beat st source now).queue = st.queue := by
  cases source <;> rfl

theorem toUpper_toNat_not_lower (c : Char) :
    ¬(97 ≤ (Char.toUpper c).toNat ∧ (Char.toUpper c).toNat ≤ 122) := by
  unfold Char.toUpper
  by_cases h : Char.toNat c ≥ 97 ∧ Char.toNat c ≤ 122
  · rw [if_pos h]
    obtain ⟨h1, h2⟩ := h
    set n := Char.toNat c with hn
    interval_cases n <;> decide
  · rw [if_neg h]
    intro hcon
    exact h ⟨hcon.1, hcon.2⟩

/-- An output of `pyUpper` never contains a lowercase ASCII letter, so it can
never equal a string that contains one. -/
theorem pyUpper_ne_of_lower {k : String} {c : Char} (hc : c ∈ k.data)
    (h1 : 97 ≤ c.toNat) (h2 : c.toNat ≤ 122) (s : String) : pyUpper s ≠ k := by
  intro he
  have hdata : s.data.map Char.toUpper = k.data := congrArg String.data he
  rw [← hdata] at hc
  obtain ⟨c', _, hc'⟩ := List.mem_map.mp hc
  exact toUpper_toNat_not_lower c' ⟨hc' ▸ h1, hc' ▸ h2⟩

/-- `process_signal` on a whitelisted address only updates the heartbeat. -/
theorem process_signal_whitelisted (cfg : Config) (st : SentryState) (mac : String)
    (rssi : Int) (source : Source) (now : ℚ)
    (hw : (alLookup (pyUpper mac) cfg.whitelist).isSome = true) :
    process_signal cfg st mac rssi source now = update_beat st source now := by
  simp [process_signal, hw]

/-- `process_signal` on a first-sighted non-whitelisted address seeds its
record with a one-element history and touches nothing else (besides the
heartbeat). -/
theorem process_signal_fresh (cfg : Config) (st : SentryState) (mac : String)
    (rssi : Int) (source : Source) (now : ℚ)
    (hw : alLookup (pyUpper mac) cfg.whitelist = none)
    (h0 : alLookup (pyUpper mac) st.tracking = none) :
    process_signal cfg st mac rssi source now =
      { update_beat st source now with
        tracking := alSet (pyUpper mac) { rssi := rssi, ts := now, history := [rssi] }
          st.tracking } := by
  simp [process_signal, hw, update_beat_tracking, h0]

/-- The tracking map after `process_signal` on an already-tracked
non-whitelisted address: last strength, timestamp, and bounded history. -/
theorem process_signal_tracked_tracking (cfg : Config) (st : SentryState) (mac : String)
    (rssi : Int) (source : Source) (now : ℚ) (record : DeviceRecord)
    (hw : alLookup (pyUpper mac) cfg.whitelist = none)
    (hr : alLookup (pyUpper mac) st.tracking = some record) :
    (process_signal cfg st mac rssi source now).tracking =
      alSet (pyUpper mac)
        { rssi := rssi, ts := now,
          history := if (record.history ++ [rssi]).length > 5 then
              (record.history ++ [rssi]).drop 1
            else record.history ++ [rssi] }
        st.tracking := by
  simp only [process_signal, hw, Option.isSome_none, Bool.false_eq_true, if_false,
    update_beat_tracking, hr]
  split
  · simp [update_beat_tracking]
  · simp [update_beat_tracking]

/-- The event queue after `process_signal` on an already-tracked
non-whitelisted address: one alert appended exactly when the delta and floor
conditions both hold. -/
theorem process_signal_tracked_queue (cfg : Config) (st : SentryState) (mac : String)
    (rssi : Int) (source : Source) (now : ℚ) (record : DeviceRecord)
    (hw : alLookup (pyUpper mac) cfg.whitelist = none)
    (hr : alLookup (pyUpper mac) st.tracking = some record) :
    (process_signal cfg st mac rssi source now).queue =
      st.queue ++
        (if rssi - record.rssi ≥ cfg.approach_delta ∧ rssi > cfg.rssi_threshold_alert then
          [mkAlert (pyUpper mac) (rssi - record.rssi) rssi now]
        else []) := by
  simp only [process_signal, hw, Option.isSome_none, Bool.false_eq_true, if_false,
    update_beat_tracking, hr]
  split
  · simp [update_beat_queue]
  · simp [update_beat_queue]

/-- Heartbeat fields pass through `process_signal` unchanged after the
initial `update_beat`. -/
theorem process_signal_beats (cfg : Config) (st : SentryState) (mac : String)
    (rssi : Int) (source : Source) (now : ℚ) :
    (process_signal cfg st mac rssi source now).bt_last_beat =
        (update_beat st source now).bt_last_beat ∧
    (process_signal cfg st mac rssi source now).wifi_last_beat =
        (update_beat st source now).wifi_last_beat := by
  simp only [process_signal]
  constructor <;>
    (split
     · rfl
     · split
       · rfl
       · split <;> rfl)

/-! ### The claims -/

/-- C1: the claim says every Wi-Fi scan cycle spawns a command naming the
configured `wifi_interface` (default `"wlan0"`) and proceeds to parsing.
The code instead interpolates the module global `WIFI_IFACE`, a name bound
nowhere in `rf_sentry.py`, so building the command raises `NameError` and
every cycle ends in the error arm instead of parsing. -/
theorem C1_wifi_scan_unbound_interface :
    wifiScanCmd = none ∧
    rfSentryModuleGlobals.contains "WIFI_IFACE" = false ∧
    defaultConfig.wifi_interface = "wlan0" ∧
    ∀ scanTimedOut : Bool, wifiCycle scanTimedOut = .errored := by
  refine ⟨by decide, by decide, rfl, ?_⟩
  intro t
  cases t <;> rfl

/-- C4: a reading whose uppercased address is a whitelist key creates no
`DeviceRecord`, modifies no tracking state, and produces no `AlertEvent`,
whatever its strength. -/
theorem C4_whitelisted_no_record_no_alert (cfg : Config) (st : SentryState) (mac : String)
    (rssi : Int) (source : Source) (now : ℚ)
    (hw : (alLookup (pyUpper mac) cfg.whitelist).isSome = true) :
    (process_signal cfg st mac rssi source now).tracking = st.tracking ∧
    (process_signal cfg st mac rssi source now).queue = st.queue := by
  rw [process_signal_whitelisted cfg st mac rssi source now hw]
  exact ⟨update_beat_tracking st source now, update_beat_queue st source now⟩

/-- Witness for C4 at a whitelisted address (listed uppercase, reported
lowercase) with a large strength jump. -/
theorem C4_whitelisted_no_record_no_alert_witness :
    ((alLookup (pyUpper "aa:bb:cc:dd:ee:ff")
      [("AA:BB:CC:DD:EE:FF", "trusted phone")]).isSome = true) ∧
    ((process_signal
        { defaultConfig with whitelist := [("AA:BB:CC:DD:EE:FF", "trusted phone")] }
        ⟨0, 0, true, true, [], []⟩ "aa:bb:cc:dd:ee:ff" (-30) .bt 1).tracking = [] ∧
     (process_signal
        { defaultConfig with whitelist := [("AA:BB:CC:DD:EE:FF", "trusted phone")] }
        ⟨0, 0, true, true, [], []⟩ "aa:bb:cc:dd:ee:ff" (-30) .bt 1).queue = []) :=
  ⟨by decide,
   C4_whitelisted_no_record_no_alert
     { defaultConfig with whitelist := [("AA:BB:CC:DD:EE:FF", "trusted phone")] }
     ⟨0, 0, true, true, [], []⟩ "aa:bb:cc:dd:ee:ff" (-30) .bt 1 (by decide)⟩

/-- C6: every `process_signal` call sets the heartbeat of its source to the
current time — before the whitelist or first-sighting checks, hence
unconditionally — and leaves the other source's heartbeat unchanged. -/
theorem C6_heartbeat_unconditional (cfg : Config) (st : SentryState) (mac : String)
    (rssi : Int) (source : Source) (now : ℚ) :
    beatOf (process_signal cfg st mac rssi source now) source = now ∧
    beatOf (process_signal cfg st mac rssi source now) (otherSource source) =
      beatOf st (otherSource source) := by
  obtain ⟨hb, hw⟩ := process_signal_beats cfg st mac rssi source now
  cases source <;> simp [beatOf, otherSource, hb, hw, update_beat]

/-- C8 counterexample: with the first reset step failing by raising (a spawn
error — `check=False` only forgives nonzero exit statuses), the remaining
steps are never attempted, refuting "for every combination of step failures,
the sequence runs to completion". -/
theorem C8_counterexample_first_step_raises :
    (reset_bt_adapter .raises .ok .ok).1 ≠ reset_bt_adapter_actions := by
  decide

/-- C8 amended: no step failure ever propagates to the caller, and a step
failing with a nonzero exit status (the `check=False` case) never prevents
the later steps; only a step whose invocation itself raises cuts the
sequence short. -/
theorem C8_reset_best_effort (o1 o2 o3 : CmdOutcome) :
    (reset_bt_adapter o1 o2 o3).2 = false ∧
    (o1 ≠ .raises → o2 ≠ .raises →
      (reset_bt_adapter o1 o2 o3).1 = reset_bt_adapter_actions) := by
  cases o1 <;> cases o2 <;> cases o3 <;> simp [reset_bt_adapter, reset_bt_adapter_actions]

/-- Witness for C8 amended: both `rfkill` steps exit nonzero and the
`hciconfig` step raises; all three steps are still attempted and nothing
escapes to the caller. -/
theorem C8_reset_best_effort_witness :
    (reset_bt_adapter .nonzeroExit .nonzeroExit .raises).2 = false ∧
    (reset_bt_adapter .nonzeroExit .nonzeroExit .raises).1 = reset_bt_adapter_actions :=
  ⟨(C8_reset_best_effort .nonzeroExit .nonzeroExit .raises).1,
   (C8_reset_best_effort .nonzeroExit .nonzeroExit .raises).2 (by decide) (by decide)⟩

/-- C9: the consumer's guarded pop returns the pending head (removing it)
and a well-defined empty result on an empty queue; with `push` appending at
the tail, pushing `e₁` then `e₂` and popping twice yields `e₁` then `e₂`. -/
theorem C9_queue_fifo :
    popOldest ([] : List AlertEvent) = (none, []) ∧
    (∀ (e : AlertEvent) (rest : List AlertEvent), popOldest (e :: rest) = (some e, rest)) ∧
    (∀ e₁ e₂ : AlertEvent,
      (popOldest (push (push [] e₁) e₂)).1 = some e₁ ∧
      (popOldest (popOldest (push (push [] e₁) e₂)).2).1 = some e₂) :=
  ⟨rfl, fun _ _ => rfl, fun _ _ => ⟨rfl, rfl⟩⟩

/-- C2: with a tracked, non-whitelisted address, an alert is appended iff
`delta ≥ approachDelta` and `rssi > rssiThresholdAlert` (strict floor); and
the −70 dBm → −60 dBm scenario under the default thresholds yields exactly
one alert carrying delta +10 and strength −60. -/
theorem C2_alert_iff_delta_and_floor (cfg : Config) (st : SentryState) (mac : String)
    (rssi : Int) (source : Source) (now : ℚ) (record : DeviceRecord)
    (hw : alLookup (pyUpper mac) cfg.whitelist = none)
    (hr : alLookup (pyUpper mac) st.tracking = some record) :
    ((process_signal cfg st mac rssi source now).queue =
      st.queue ++
        (if rssi - record.rssi ≥ cfg.approach_delta ∧ rssi > cfg.rssi_threshold_alert then
          [mkAlert (pyUpper mac) (rssi - record.rssi) rssi now]
        else [])) ∧
    (∀ (t₁ t₂ b w : ℚ) (ba wa : Bool) (src : Source),
      (process_signal defaultConfig
        (process_signal defaultConfig ⟨b, w, ba, wa, [], []⟩ "AA:BB:CC:DD:EE:FF" (-70) src t₁)
        "AA:BB:CC:DD:EE:FF" (-60) src t₂).queue =
      [mkAlert "AA:BB:CC:DD:EE:FF" 10 (-60) t₂]) := by
  constructor
  · exact process_signal_tracked_queue cfg st mac rssi source now record hw hr
  · intro t₁ t₂ b w ba wa src
    have hup : pyUpper "AA:BB:CC:DD:EE:FF" = "AA:BB:CC:DD:EE:FF" := by decide
    have h1 := process_signal_fresh defaultConfig ⟨b, w, ba, wa, [], []⟩
      "AA:BB:CC:DD:EE:FF" (-70) src t₁ (by rw [hup]; rfl) (by rw [hup]; rfl)
    set st₁ := process_signal defaultConfig ⟨b, w, ba, wa, [], []⟩
      "AA:BB:CC:DD:EE:FF" (-70) src t₁ with hst₁
    have htr : alLookup (pyUpper "AA:BB:CC:DD:EE:FF") st₁.tracking =
        some { rssi := -70, ts := t₁, history := [-70] } := by
      rw [h1]
      exact alLookup_alSet_self _ _ _
    have h2 := process_signal_tracked_queue defaultConfig st₁ "AA:BB:CC:DD:EE:FF" (-60) src t₂
      { rssi := -70, ts := t₁, history := [-70] } (by rw [hup]; rfl) htr
    rw [h2, h1]
    have hq : (update_beat ⟨b, w, ba, wa, [], []⟩ src t₁).queue = [] := by
      cases src <;> rfl
    simp only [hq, hup]
    norm_num [defaultConfig]

/-- Witness for C2: a tracked address at −70 dBm reports −60 dBm under the
default thresholds; exactly one alert with delta +10 and strength −60 is
appended. -/
theorem C2_alert_iff_delta_and_floor_witness :
    alLookup (pyUpper "AA:BB:CC:DD:EE:FF") defaultConfig.whitelist = none ∧
    alLookup (pyUpper "AA:BB:CC:DD:EE:FF")
      (SentryState.mk 0 0 true true
        [("AA:BB:CC:DD:EE:FF", { rssi := -70, ts := 0, history := [-70] })] []).tracking =
      some { rssi := -70, ts := 0, history := [-70] } ∧
    (process_signal defaultConfig
      (SentryState.mk 0 0 true true
        [("AA:BB:CC:DD:EE:FF", { rssi := -70, ts := 0, history := [-70] })] [])
      "AA:BB:CC:DD:EE:FF" (-60) .bt 1).queue =
      [mkAlert "AA:BB:CC:DD:EE:FF" 10 (-60) 1] := by
  refine ⟨by decide, by decide, ?_⟩
  have h := (C2_alert_iff_delta_and_floor defaultConfig
    (SentryState.mk 0 0 true true
      [("AA:BB:CC:DD:EE:FF", { rssi := -70, ts := 0, history := [-70] })] [])
    "AA:BB:CC:DD:EE:FF" (-60) .bt 1 { rssi := -70, ts := 0, history := [-70] }
    (by decide) (by decide)).1
  rw [h]
  have hup : pyUpper "AA:BB:CC:DD:EE:FF" = "AA:BB:CC:DD:EE:FF" := by decide
  norm_num [defaultConfig, hup]

/-- C3: the first reading of a non-whitelisted address seeds a one-element
record and raises nothing; the second, with qualifying delta and floor,
appends exactly one alert. -/
theorem C3_first_seeds_second_alerts (cfg : Config) (st : SentryState) (mac : String)
    (rssi₁ rssi₂ : Int) (source₁ source₂ : Source) (now₁ now₂ : ℚ)
    (hw : alLookup (pyUpper mac) cfg.whitelist = none)
    (h0 : alLookup (pyUpper mac) st.tracking = none)
    (hd : rssi₂ - rssi₁ ≥ cfg.approach_delta)
    (hs : rssi₂ > cfg.rssi_threshold_alert) :
    alLookup (pyUpper mac) (process_signal cfg st mac rssi₁ source₁ now₁).tracking =
      some { rssi := rssi₁, ts := now₁, history := [rssi₁] } ∧
    (process_signal cfg st mac rssi₁ source₁ now₁).queue = st.queue ∧
    (process_signal cfg (process_signal cfg st mac rssi₁ source₁ now₁)
        mac rssi₂ source₂ now₂).queue =
      st.queue ++ [mkAlert (pyUpper mac) (rssi₂ - rssi₁) rssi₂ now₂] := by
  have h1 := process_signal_fresh cfg st mac rssi₁ source₁ now₁ hw h0
  have htr : alLookup (pyUpper mac) (process_signal cfg st mac rssi₁ source₁ now₁).tracking =
      some { rssi := rssi₁, ts := now₁, history := [rssi₁] } := by
    rw [h1]
    exact alLookup_alSet_self _ _ _
  have hq₁ : (process_signal cfg st mac rssi₁ source₁ now₁).queue = st.queue := by
    rw [h1]
    exact update_beat_queue st source₁ now₁
  refine ⟨htr, hq₁, ?_⟩
  have h2 := process_signal_tracked_queue cfg (process_signal cfg st mac rssi₁ source₁ now₁)
    mac rssi₂ source₂ now₂ { rssi := rssi₁, ts := now₁, history := [rssi₁] } hw htr
  rw [h2, hq₁, if_pos ⟨hd, hs⟩]

/-- Witness for C3 at the spec's scenario inputs (−70 dBm then −60 dBm,
default thresholds). -/
theorem C3_first_seeds_second_alerts_witness :
    alLookup (pyUpper "AA:BB:CC:DD:EE:FF") defaultConfig.whitelist = none ∧
    alLookup (pyUpper "AA:BB:CC:DD:EE:FF")
      (SentryState.mk 0 0 true true [] []).tracking = none ∧
    ((-60 : Int) - (-70) ≥ defaultConfig.approach_delta) ∧
    ((-60 : Int) > defaultConfig.rssi_threshold_alert) ∧
    (alLookup (pyUpper "AA:BB:CC:DD:EE:FF")
        (process_signal defaultConfig (SentryState.mk 0 0 true true [] [])
          "AA:BB:CC:DD:EE:FF" (-70) .wifi 1).tracking =
      some { rssi := -70, ts := 1, history := [-70] } ∧
     (process_signal defaultConfig (SentryState.mk 0 0 true true [] [])
        "AA:BB:CC:DD:EE:FF" (-70) .wifi 1).queue = [] ∧
     (process_signal defaultConfig
        (process_signal defaultConfig (SentryState.mk 0 0 true true [] [])
          "AA:BB:CC:DD:EE:FF" (-70) .wifi 1)
        "AA:BB:CC:DD:EE:FF" (-60) .wifi 2).queue =
      [] ++ [mkAlert (pyUpper "AA:BB:CC:DD:EE:FF") ((-60) - (-70)) (-60) 2]) :=
  ⟨by decide, by decide, by decide, by decide,
   C3_first_seeds_second_alerts defaultConfig (SentryState.mk 0 0 true true [] [])
     "AA:BB:CC:DD:EE:FF" (-70) (-60) .wifi .wifi 1 2
     (by decide) (by decide) (by decide) (by decide)⟩

/-- The record under the address's own key after a tracked update. -/
theorem alLookup_process_signal_tracked (cfg : Config) (st : SentryState) (mac : String)
    (rssi : Int) (source : Source) (now : ℚ) (record : DeviceRecord)
    (hw : alLookup (pyUpper mac) cfg.whitelist = none)
    (hr : alLookup (pyUpper mac) st.tracking = some record) :
    alLookup (pyUpper mac) (process_signal cfg st mac rssi source now).tracking =
      some { rssi := rssi, ts := now,
             history := if (record.history ++ [rssi]).length > 5 then
                 (record.history ++ [rssi]).drop 1
               else record.history ++ [rssi] } := by
  rw [process_signal_tracked_tracking cfg st mac rssi source now record hw hr]
  exact alLookup_alSet_self _ _ _

/-- C5: every record's history stays at length ≤ 5 across any
`process_signal` call, and six sequential readings of one fresh
non-whitelisted address leave exactly the last five strengths in arrival
order. -/
theorem C5_history_bounded (cfg : Config) (st : SentryState) (mac : String)
    (rssi : Int) (source : Source) (now : ℚ)
    (hinv : ∀ k r, alLookup k st.tracking = some r → r.history.length ≤ 5) :
    (∀ k r, alLookup k (process_signal cfg st mac rssi source now).tracking = some r →
      r.history.length ≤ 5) ∧
    (∀ (mac' : String) (src : Source) (r₁ r₂ r₃ r₄ r₅ r₆ : Int) (t₁ t₂ t₃ t₄ t₅ t₆ : ℚ),
      alLookup (pyUpper mac') cfg.whitelist = none →
      alLookup (pyUpper mac') st.tracking = none →
      alLookup (pyUpper mac')
        (processSeq cfg st mac' src
          [(r₁, t₁), (r₂, t₂), (r₃, t₃), (r₄, t₄), (r₅, t₅), (r₆, t₆)]).tracking =
        some { rssi := r₆, ts := t₆, history := [r₂, r₃, r₄, r₅, r₆] }) := by
  constructor
  · intro k r hk
    by_cases hwl : (alLookup (pyUpper mac) cfg.whitelist).isSome = true
    · rw [process_signal_whitelisted cfg st mac rssi source now hwl,
        update_beat_tracking] at hk
      exact hinv k r hk
    · have hwn : alLookup (pyUpper mac) cfg.whitelist = none := by
        cases hcase : alLookup (pyUpper mac) cfg.whitelist with
        | none => rfl
        | some v => rw [hcase] at hwl; simp at hwl
      cases h0 : alLookup (pyUpper mac) st.tracking with
      | none =>
          rw [process_signal_fresh cfg st mac rssi source now hwn h0] at hk
          have hk' : alLookup k (alSet (pyUpper mac)
              { rssi := rssi, ts := now, history := [rssi] } st.tracking) = some r := hk
          rcases alLookup_alSet_some hk' with hv | hold
          · rw [hv]
            simp
          · exact hinv k r hold
      | some record =>
          rw [process_signal_tracked_tracking cfg st mac rssi source now record hwn h0] at hk
          rcases alLookup_alSet_some hk with hv | hold
          · rw [hv]
            have hrec := hinv _ _ h0
            by_cases hl : (record.history ++ [rssi]).length > 5
            · rw [if_pos hl]
              simp only [List.length_drop, List.length_append, List.length_cons,
                List.length_nil] at hl ⊢
              omega
            · simp only [if_neg hl]
              simp only [List.length_append, List.length_cons, List.length_nil, not_lt] at hl ⊢
              omega
          · exact hinv k r hold
  · intro mac' src r₁ r₂ r₃ r₄ r₅ r₆ t₁ t₂ t₃ t₄ t₅ t₆ hw' h0'
    simp only [processSeq]
    have e₁ := process_signal_fresh cfg st mac' r₁ src t₁ hw' h0'
    have l₁ : alLookup (pyUpper mac') (process_signal cfg st mac' r₁ src t₁).tracking =
        some { rssi := r₁, ts := t₁, history := [r₁] } := by
      rw [e₁]
      exact alLookup_alSet_self _ _ _
    have l₂ := alLookup_process_signal_tracked cfg _ mac' r₂ src t₂ _ hw' l₁
    simp only [List.cons_append, List.nil_append, List.length_cons, List.length_nil] at l₂
    norm_num at l₂
    have l₃ := alLookup_process_signal_tracked cfg _ mac' r₃ src t₃ _ hw' l₂
    simp only [List.cons_append, List.nil_append, List.length_cons, List.length_nil] at l₃
    norm_num at l₃
    have l₄ := alLookup_process_signal_tracked cfg _ mac' r₄ src t₄ _ hw' l₃
    simp only [List.cons_append, List.nil_append, List.length_cons, List.length_nil] at l₄
    norm_num at l₄
    have l₅ := alLookup_process_signal_tracked cfg _ mac' r₅ src t₅ _ hw' l₄
    simp only [List.cons_append, List.nil_append, List.length_cons, List.length_nil] at l₅
    norm_num at l₅
    have l₆ := alLookup_process_signal_tracked cfg _ mac' r₆ src t₆ _ hw' l₅
    simp only [List.cons_append, List.nil_append, List.length_cons, List.length_nil] at l₆
    norm_num at l₆
    exact l₆

/-- Witness for C5: six readings for one fresh address leave exactly the last
five strengths, oldest evicted. -/
theorem C5_history_bounded_witness :
    alLookup (pyUpper "AA:BB:CC:DD:EE:FF")
      (processSeq defaultConfig (SentryState.mk 0 0 true true [] []) "AA:BB:CC:DD:EE:FF" .bt
        [(-90, 1), (-88, 2), (-86, 3), (-80, 4), (-70, 5), (-60, 6)]).tracking =
      some { rssi := -60, ts := 6, history := [-88, -86, -80, -70, -60] } :=
  (C5_history_bounded defaultConfig (SentryState.mk 0 0 true true [] [])
      "AA:BB:CC:DD:EE:FF" (-70) .bt 1
      (fun k r h => by simp [alLookup] at h)).2
    "AA:BB:CC:DD:EE:FF" .bt (-90) (-88) (-86) (-80) (-70) (-60) 1 2 3 4 5 6
    (by decide) (by decide)

/-- C7: with both sensor threads alive, one supervisor poll restarts exactly
the sensors whose heartbeat age exceeds their threshold (`watchdog_timeout`
for Bluetooth, `timeout * 3` for Wi-Fi), in the order: hardware reset
(Bluetooth only), stop of the existing instance (flag, then graceful
terminate, then forced kill for Bluetooth; flag for Wi-Fi), heartbeat reset,
fresh start; and the triggered restarts set that sensor's heartbeat to now. -/
theorem C7_supervisor_restart_contract (cfg : Config) (st : SentryState) (now : ℚ)
    (hba : st.bt_alive = true) (hwa : st.wifi_alive = true) :
    ((pollStep cfg st now).1 =
      (if now - st.bt_last_beat > cfg.watchdog_timeout then
        reset_bt_adapter_actions ++ stop_bt_actions ++ [.btBeatReset, .btThreadStart]
      else []) ++
      (if now - st.wifi_last_beat > cfg.watchdog_timeout * 3 then
        stop_wifi_actions ++ [.wifiBeatReset, .wifiThreadStart]
      else [])) ∧
    (now - st.bt_last_beat > cfg.watchdog_timeout →
      (pollStep cfg st now).2.bt_last_beat = now) ∧
    (now - st.wifi_last_beat > cfg.watchdog_timeout * 3 →
      (pollStep cfg st now).2.wifi_last_beat = now) := by
  by_cases hb : now - st.bt_last_beat > cfg.watchdog_timeout <;>
    by_cases hw : now - st.wifi_last_beat > cfg.watchdog_timeout * 3 <;>
      simp [pollStep, start_bt, start_wifi, hb, hw, hba, hwa]

/-- Witness for C7: both heartbeats stale at `now = 100` under the default
10 s timeout; the poll performs the full Bluetooth reset-and-restart followed
by the Wi-Fi restart and sets both heartbeats to 100. -/
theorem C7_supervisor_restart_contract_witness :
    (pollStep defaultConfig (SentryState.mk 0 0 true true [] []) 100).1 =
      [.rfkillBlock, .rfkillUnblock, .hciReset, .btStopFlag, .btTerminate, .btKill,
       .btBeatReset, .btThreadStart, .wifiStopFlag, .wifiBeatReset, .wifiThreadStart] ∧
    (pollStep defaultConfig (SentryState.mk 0 0 true true [] []) 100).2.bt_last_beat = 100 ∧
    (pollStep defaultConfig (SentryState.mk 0 0 true true [] []) 100).2.wifi_last_beat = 100 := by
  have h := C7_supervisor_restart_contract defaultConfig
    (SentryState.mk 0 0 true true [] []) 100 rfl rfl
  have hb : (100 : ℚ) - (SentryState.mk 0 0 true true [] []).bt_last_beat >
      defaultConfig.watchdog_timeout := by norm_num [defaultConfig]
  have hw : (100 : ℚ) - (SentryState.mk 0 0 true true [] []).wifi_last_beat >
      defaultConfig.watchdog_timeout * 3 := by norm_num [defaultConfig]
  refine ⟨?_, h.2.1 hb, h.2.2 hw⟩
  rw [h.1, if_pos hb, if_pos hw]
  rfl

/-- C10: the whitelist filter compares the uppercased address against keys by
exact string equality, so a key containing a lowercase hex letter never
matches any reading; a device listed only under such a key is tracked on
first sighting and alerts on a qualifying second reading, exactly like an
unknown device. -/
theorem C10_lowercase_whitelist_key_ineffective (k name mac : String) (c : Char)
    (st : SentryState) (rssi₁ rssi₂ : Int) (source : Source) (now₁ now₂ : ℚ)
    (hc : c ∈ k.data) (h1 : 97 ≤ c.toNat) (h2 : c.toNat ≤ 102)
    (h0 : alLookup (pyUpper mac) st.tracking = none)
    (hd : rssi₂ - rssi₁ ≥ 5) (hs : rssi₂ > -85) :
    (∀ m : String,
      alLookup (pyUpper m)
        (Config.mk [(k, name)] 5 10 10 "wlan0" (-85)).whitelist = none) ∧
    alLookup (pyUpper mac)
      (process_signal (Config.mk [(k, name)] 5 10 10 "wlan0" (-85))
        st mac rssi₁ source now₁).tracking =
      some { rssi := rssi₁, ts := now₁, history := [rssi₁] } ∧
    (process_signal (Config.mk [(k, name)] 5 10 10 "wlan0" (-85))
      (process_signal (Config.mk [(k, name)] 5 10 10 "wlan0" (-85)) st mac rssi₁ source now₁)
      mac rssi₂ source now₂).queue =
      st.queue ++ [mkAlert (pyUpper mac) (rssi₂ - rssi₁) rssi₂ now₂] := by
  have hne : ∀ m : String,
      alLookup (pyUpper m) (Config.mk [(k, name)] 5 10 10 "wlan0" (-85)).whitelist = none := by
    intro m
    have hk : k ≠ pyUpper m := fun he =>
      pyUpper_ne_of_lower hc h1 (le_trans h2 (by norm_num)) m he.symm
    simp [alLookup, hk]
  have hfresh := process_signal_fresh (Config.mk [(k, name)] 5 10 10 "wlan0" (-85))
    st mac rssi₁ source now₁ (hne mac) h0
  have htr : alLookup (pyUpper mac)
      (process_signal (Config.mk [(k, name)] 5 10 10 "wlan0" (-85))
        st mac rssi₁ source now₁).tracking =
      some { rssi := rssi₁, ts := now₁, history := [rssi₁] } := by
    rw [hfresh]
    exact alLookup_alSet_self _ _ _
  refine ⟨hne, htr, ?_⟩
  have h2q := process_signal_tracked_queue (Config.mk [(k, name)] 5 10 10 "wlan0" (-85))
    (process_signal (Config.mk [(k, name)] 5 10 10 "wlan0" (-85)) st mac rssi₁ source now₁)
    mac rssi₂ source now₂ { rssi := rssi₁, ts := now₁, history := [rssi₁] } (hne mac) htr
  rw [h2q, if_pos ⟨hd, hs⟩, hfresh]
  rw [update_beat_queue]

/-- Witness for C10: the device is whitelisted under its lowercase MAC, reads
−70 dBm then −60 dBm, and alerts anyway. -/
theorem C10_lowercase_whitelist_key_ineffective_witness :
    ('a' ∈ ("aa:bb:cc:dd:ee:ff" : String).data ∧ 97 ≤ 'a'.toNat ∧ 'a'.toNat ≤ 102) ∧
    (∀ m : String,
      alLookup (pyUpper m)
        (Config.mk [("aa:bb:cc:dd:ee:ff", "trusted phone")] 5 10 10 "wlan0" (-85)).whitelist =
        none) ∧
    alLookup (pyUpper "AA:BB:CC:DD:EE:FF")
      (process_signal (Config.mk [("aa:bb:cc:dd:ee:ff", "trusted phone")] 5 10 10 "wlan0" (-85))
        (SentryState.mk 0 0 true true [] []) "AA:BB:CC:DD:EE:FF" (-70) .bt 1).tracking =
      some { rssi := -70, ts := 1, history := [-70] } ∧
    (process_signal (Config.mk [("aa:bb:cc:dd:ee:ff", "trusted phone")] 5 10 10 "wlan0" (-85))
      (process_signal (Config.mk [("aa:bb:cc:dd:ee:ff", "trusted phone")] 5 10 10 "wlan0" (-85))
        (SentryState.mk 0 0 true true [] []) "AA:BB:CC:DD:EE:FF" (-70) .bt 1)
      "AA:BB:CC:DD:EE:FF" (-60) .bt 2).queue =
      [] ++ [mkAlert (pyUpper "AA:BB:CC:DD:EE:FF") ((-60) - (-70)) (-60) 2] :=
  ⟨⟨by decide, by decide, by decide⟩,
   C10_lowercase_whitelist_key_ineffective "aa:bb:cc:dd:ee:ff" "trusted phone"
     "AA:BB:CC:DD:EE:FF" 'a' (SentryState.mk 0 0 true true [] []) (-70) (-60) .bt 1 2
     (by decide) (by decide) (by decide) (by decide) (by decide) (by decide)⟩
